import Mathlib

/-!
Verification development for `exo_app.py`, a Streamlit exoplanet-hunting
dashboard.  The file gives a shallow embedding of the app's pure logic:

* the search-tab target resolver (`search_tab`), including an executable
  model of the Python string normalization it performs
  (`upper`/`replace`/`strip`/`isdigit`, restricted to ASCII text);
* the catalog client (`fetch_catalog_targets`, `fetch_untested_targets`),
  with the remote CSV fetch, the MAST catalog query and pandas'
  random sampling modelled as explicit parameters (nondeterminism and
  network effects become universally-quantified functions with the
  contracts the libraries guarantee);
* the light-curve pipeline (`process_selected_data`), with downloads and
  the lightkurve stages that can raise modelled as `Except`-valued
  parameters, Streamlit placeholders as `Option` fields of a UI-state
  record, and the stage-2 stitch (`stitchStage`) and the astropy fold
  phase arithmetic (`foldPhase`) modelled concretely over `ℚ`.

Theorems then settle the specification's claims about these functions.
-/

namespace ExoApp

/-! ## Python string primitives (ASCII model)

`search_tab` in `exo_app.py` normalizes the free-text input with
`.upper().replace("TIC", "").replace("KIC", "").replace("EPIC", "").strip()`
and classifies it with `.isdigit()`.  We model these Python string methods
over `List Char` / `String`, restricted to ASCII (Python's `upper`,
`strip` and `isdigit` also handle non-ASCII code points; none of the
claims depend on that). -/

/-- Python `str.upper`, ASCII model: uppercase every character. -/
def pyUpper (s : String) : String :=
  String.mk (s.data.map Char.toUpper)

/-- Whitespace characters stripped by Python `str.strip()` (ASCII model). -/
def pyIsSpace (c : Char) : Bool :=
  c = ' ' ∨ c = '\t' ∨ c = '\n' ∨ c = '\r' ∨ c = '\x0b' ∨ c = '\x0c'

/-- Python `str.strip()`, ASCII model: drop leading and trailing whitespace. -/
def pyStrip (s : String) : String :=
  String.mk (((s.data.dropWhile pyIsSpace).reverse.dropWhile pyIsSpace).reverse)

/-- One fuel-indexed pass of Python `str.replace`: scan left to right,
replacing each non-overlapping occurrence of `pat` by `rep`.  The fuel is
an upper bound on the number of characters consumed; callers pass the
length of the string, which suffices because each step consumes at least
one character when `pat` is nonempty. -/
def replaceFuel (pat rep : List Char) : Nat → List Char → List Char
  | _, [] => []
  | 0, s => s
  | fuel + 1, c :: cs =>
    if pat.isPrefixOf (c :: cs) then
      rep ++ replaceFuel pat rep fuel (cs.drop (pat.length - 1))
    else
      c :: replaceFuel pat rep fuel cs

/-- Python `str.replace(pat, rep)` for a nonempty pattern (the app only
replaces the literals `"TIC"`, `"KIC"`, `"EPIC"`); for an empty pattern we
return the string unchanged. -/
def pyReplace (s pat rep : String) : String :=
  if pat.data.isEmpty then s
  else String.mk (replaceFuel pat.data rep.data s.data.length s.data)

/-- Python `str.isdigit`, ASCII model: nonempty and all decimal digits
(`"".isdigit()` is `False` in Python). -/
def pyIsdigit (s : String) : Bool :=
  !s.data.isEmpty && s.data.all Char.isDigit

/-! ## Target resolver (search tab)

Model of the classification logic of the "Search for a Star" tab
(`exo_app.py` lines 181–196).  The Streamlit calls are abstracted into an
action datatype: the two `search…` constructors are the only ones that
invoke `lk.search_lightcurve`, the two `warn…` constructors report a
user-facing warning and attempt no archive search. -/

/-- The normalization applied to the search input:
`star_id_input.upper().replace("TIC", "").replace("KIC", "").replace("EPIC", "").strip()`. -/
def searchTerm (star_id_input : String) : String :=
  pyStrip (pyReplace (pyReplace (pyReplace (pyUpper star_id_input) "TIC" "") "KIC" "") "EPIC" "")

/-- What the search-tab button handler does with the input: warn (no
archive search is attempted), or search, either unfiltered (numeric-ID
path: `lk.search_lightcurve(star_id_input)`) or with the sidebar's
mission/author filters. -/
inductive SearchAction where
  | warnEmptyInput
  | warnEmptyFilters
  | searchAll (query : String)
  | searchFiltered (query : String) (missions authors : List String)
  deriving DecidableEq, Repr

/-- The search-tab handler (`exo_app.py` lines 183–196): empty input warns;
a normalized all-digit input searches all missions and authors; otherwise a
name search requires nonempty mission and author selections, warning when
either is empty. -/
def search_tab (star_id_input : String) (selected_missions selected_authors : List String) :
    SearchAction :=
  if star_id_input = "" then
    SearchAction.warnEmptyInput
  else
    let search_term := searchTerm star_id_input
    let is_id_search := pyIsdigit search_term
    if is_id_search then
      SearchAction.searchAll star_id_input
    else if selected_missions = [] ∨ selected_authors = [] then
      SearchAction.warnEmptyFilters
    else
      SearchAction.searchFiltered star_id_input selected_missions selected_authors

/-! ## Catalog client: `fetch_catalog_targets`

Model of `fetch_catalog_targets(mission_name, disposition_type, num_targets)`
(`exo_app.py` lines 73–111).  The remote CSV is a list of rows, each
carrying the object-ID column, the disposition column, and the optional
period/radius columns that survive the renaming.  The fetch
(`pd.read_csv` plus the access to the mission-specific columns, either of
which can raise — network error or schema mismatch) is a parameter
returning `Except`; pandas' `DataFrame.sample(n)` is a parameter `sample`
whose contract (`n` rows when `n ≤ len`, each drawn from the frame) is a
hypothesis of the theorems. -/

/-- One row of the remote catalog CSV after column access: the numeric
object ID (`'TIC ID'` or `'kepid'`), the disposition label
(`'TFOPWG Disposition'` or `'koi_disposition'`), and the optional
period/radius columns. -/
structure CatalogRow where
  id : Nat
  disposition : String
  period : Option ℚ
  radius : Option ℚ
  deriving DecidableEq, Repr

/-- One row of the table returned to the UI, in the normalized display
schema: `"Searchable ID"` (catalog prefix ++ stringified ID), `"Status"`,
and the renamed period/radius columns. -/
structure ResultRow where
  searchableId : String
  status : String
  orbitalPeriod : Option ℚ
  planetRadius : Option ℚ
  deriving DecidableEq, Repr

/-- Observable outcome of a catalog-client call: the returned table, whether
a `st.warning` was emitted, and whether a remote fetch was attempted at all
(the unknown-mission branch returns before any network call). -/
structure FetchResult where
  table : List ResultRow
  warned : Bool
  fetchAttempted : Bool
  deriving DecidableEq, Repr

/-- URL of the TESS TOI CSV (`exo_app.py` lines 81 and 123). -/
def toiUrl : String :=
  "https://exofop.ipac.caltech.edu/tess/download_toi.php?sort=toi&output=csv"

/-- URL of the Kepler/K2 cumulative candidate CSV (`exo_app.py` line 86). -/
def keplerUrl : String :=
  "https://exoplanetarchive.ipac.caltech.edu/cgi-bin/nstedAPI/nph-nstedAPI?table=cumulative&select=kepid,koi_disposition,koi_period,koi_prad&format=csv"

/-- The column renaming and ID prefixing applied to each sampled row
(lines 100–107): rename to the display schema and set
`"Searchable ID"` to the catalog prefix followed by `str(id)`. -/
def toResultRow (idPref : String) (r : CatalogRow) : ResultRow :=
  { searchableId := idPref ++ toString r.id
    status := r.disposition
    orbitalPeriod := r.period
    planetRadius := r.radius }

/-- Shared tail of `fetch_catalog_targets` once the mission branch has fixed
the URL, the ID prefix and the disposition labels: fetch, filter by
disposition, return empty on no match, sample `min num_targets len` rows,
rename and prefix the ID column.  A failed fetch becomes a warning plus an
empty table (the `except` clause at lines 109–111). -/
def fetchCatalogBody (fetchCsv : String → Except String (List CatalogRow))
    (sample : Nat → List CatalogRow → List CatalogRow)
    (url idPref : String) (dispositions_to_find : List String) (num_targets : Nat) :
    FetchResult :=
  match fetchCsv url with
  | Except.error _ => { table := [], warned := true, fetchAttempted := true }
  | Except.ok catalog_df =>
    let filtered_df := catalog_df.filter (fun r => decide (r.disposition ∈ dispositions_to_find))
    if filtered_df.isEmpty then
      { table := [], warned := false, fetchAttempted := true }
    else
      let final_sample := sample (min num_targets filtered_df.length) filtered_df
      { table := final_sample.map (toResultRow idPref)
        warned := false
        fetchAttempted := true }

/-- `fetch_catalog_targets` (`exo_app.py` lines 73–111): dispatch on the
mission to pick URL, ID prefix and disposition vocabulary; an unknown
mission returns an empty table before any fetch. -/
def fetch_catalog_targets (fetchCsv : String → Except String (List CatalogRow))
    (sample : Nat → List CatalogRow → List CatalogRow)
    (mission_name disposition_type : String) (num_targets : Nat) : FetchResult :=
  if mission_name = "TESS" then
    fetchCatalogBody fetchCsv sample toiUrl "TIC "
      (if disposition_type = "PLANETS" then ["CP", "PC"] else ["FP"]) num_targets
  else if mission_name = "Kepler" ∨ mission_name = "K2" then
    fetchCatalogBody fetchCsv sample keplerUrl "KIC "
      (if disposition_type = "PLANETS" then ["CONFIRMED", "CANDIDATE"] else ["FALSE POSITIVE"])
      num_targets
  else
    { table := [], warned := false, fetchAttempted := false }

/-! ## Catalog client: `fetch_untested_targets`

Model of `fetch_untested_targets(num_to_sample)` (`exo_app.py` lines
114–153).  Step 1 reads the TOI CSV's `'TIC ID'` column (the known-object
ID set); step 2 queries the TIC via `Catalogs.query_criteria` with
`pagesize=num_to_sample` — the query is a parameter, and since `pagesize`
without a `page` argument only sets the per-request page length while all
matching rows are returned, no size bound is imposed on its result; step
3 keeps the queried rows whose ID is not in the known set; step 4 renames
to the display schema and prefixes `"TIC "`. -/

/-- One row of the TIC query result, restricted to the columns the app
keeps: `ID`, `Tmag`, `dst`, `ra`, `dec`. -/
structure TicRow where
  id : Nat
  tmag : ℚ
  dst : ℚ
  ra : ℚ
  dec : ℚ
  deriving DecidableEq, Repr

/-- One row of the untested-targets display table. -/
structure UntestedRow where
  searchableId : String
  tessMagnitude : ℚ
  distancePc : ℚ
  ra : ℚ
  dec : ℚ
  deriving DecidableEq, Repr

/-- Rename/prefix step of `fetch_untested_targets` (lines 143–144). -/
def renameTicRow (r : TicRow) : UntestedRow :=
  { searchableId := "TIC " ++ toString r.id
    tessMagnitude := r.tmag
    distancePc := r.dst
    ra := r.ra
    dec := r.dec }

/-- Observable outcome of `fetch_untested_targets`: the display table and
whether the `except` clause fired (warning plus empty table). -/
structure UntestedResult where
  table : List UntestedRow
  warned : Bool
  deriving DecidableEq, Repr

/-- `fetch_untested_targets` (`exo_app.py` lines 114–153).  `fetchToi`
models `pd.read_csv(toi_url)` followed by `set(toi_df['TIC ID'])`;
`queryTic` models `Catalogs.query_criteria(catalog="TIC", Vmag=(9,13),
plx=(2,100), pagesize=n).to_pandas()`.  Any exception in either becomes a
warning plus an empty table. -/
def fetch_untested_targets (fetchToi : Except String (List Nat))
    (queryTic : Nat → Except String (List TicRow)) (num_to_sample : Nat) : UntestedResult :=
  match fetchToi with
  | Except.error _ => { table := [], warned := true }
  | Except.ok known_toi_tics =>
    match queryTic num_to_sample with
    | Except.error _ => { table := [], warned := true }
    | Except.ok tic_sample_df =>
      let untested_df := tic_sample_df.filter (fun r => !(known_toi_tics.contains r.id))
      { table := untested_df.map renameTicRow, warned := false }

/-! ## Light curves

A light curve is an ordered list of samples `(time, flux)`; a NaN flux is
modelled as `none` (flux errors play no role in any claim and are
omitted).  Times and fluxes are exact rationals — the claims about the
pipeline are order/shape properties, and the fold claim is stated over
exact arithmetic as the idealization of "within floating-point
tolerance". -/

/-- One cadence of a light curve: a timestamp and an optional flux
(`none` models NaN). -/
structure LcSample where
  time : ℚ
  flux : Option ℚ
  deriving DecidableEq, Repr

/-- A light curve: an ordered list of cadences. -/
structure LightCurve where
  samples : List LcSample
  deriving DecidableEq, Repr

/-- `LightCurve.remove_nans()`: drop cadences whose flux is NaN. -/
def remove_nans (lc : LightCurve) : LightCurve :=
  ⟨lc.samples.filter (fun s => s.flux.isSome)⟩

/-- The valid (non-NaN) flux values of a light curve. -/
def fluxValues (lc : LightCurve) : List ℚ :=
  lc.samples.filterMap (fun s => s.flux)

/-- `np.nanmedian` over exact rationals: median of the sorted values
(mean of the two middle values for even length, `0` for the empty list —
NumPy returns NaN there, a case no claim exercises). -/
def nanmedian (xs : List ℚ) : ℚ :=
  let sorted := xs.mergeSort (fun a b => decide (a ≤ b))
  let n := sorted.length
  if n = 0 then 0
  else if n % 2 = 1 then sorted.getD (n / 2) 0
  else (sorted.getD (n / 2 - 1) 0 + sorted.getD (n / 2) 0) / 2

/-- `LightCurve.normalize()`: divide every flux by the median of the valid
fluxes; timestamps are untouched and NaN fluxes stay NaN.  (Over `ℚ` a
zero median gives flux `0` where NumPy would give ±inf; no claim depends
on the flux values.) -/
def normalize (lc : LightCurve) : LightCurve :=
  let m := nanmedian (fluxValues lc)
  ⟨lc.samples.map (fun s => { time := s.time, flux := s.flux.map (fun f => f / m) })⟩

/-- `LightCurveCollection.stitch()`: apply the default corrector
(`lambda x: x.normalize()`) to every member, then vertically stack the
results in collection order.  The astropy `vstack` underneath concatenates
— it does not sort by time. -/
def stitch (lcs : List LightCurve) : LightCurve :=
  ⟨(lcs.map normalize).flatMap (fun lc => lc.samples)⟩

/-- Stage 2 of the pipeline (`exo_app.py` line 48):
`final_collection.stitch().remove_nans()`. -/
def stitchStage (lcs : List LightCurve) : LightCurve :=
  remove_nans (stitch lcs)

/-- The phase assigned to timestamp `t` by
`clean_lc.fold(period, epoch_time)` (`exo_app.py` line 64): lightkurve
delegates to astropy's `TimeSeries.fold`, which with its default
`wrap_phase = period/2` maps `t` to
`((t - epoch_time + period/2) mod period) - period/2`, the representative
of `t - epoch_time` modulo `period` lying in `[-period/2, period/2)`.
`x mod period` is `x - period * ⌊x / period⌋`. -/
def foldPhase (period epoch_time t : ℚ) : ℚ :=
  ((t - epoch_time + period / 2) - period * ⌊(t - epoch_time + period / 2) / period⌋)
    - period / 2

/-! ## The pipeline: `process_selected_data`

Model of `process_selected_data(selected_items)` (`exo_app.py` lines
22–70).  Each selected item is the outcome of `.download()`: an exception
(`Except.error`), `None`, or a light curve.  The lightkurve stages that
can raise — `bin`, `flatten().remove_outliers()`, `to_periodogram`,
`fold` (plus the plotting around them) — are `Except`-valued parameters
collected in `PipelineOps`.  Streamlit effects become fields of a
`UIState` record: `st.error` messages, skip notices, rendered plots
(which persist for the run once emitted — only the two `st.empty()`
placeholders can be cleared), the status placeholder's content, and the
progress placeholder. -/

/-- Periodogram summary: the period and transit epoch at maximum power
(`period_at_max_power`, `transit_time_at_max_power`). -/
structure Periodogram where
  period_at_max_power : ℚ
  transit_time_at_max_power : ℚ
  deriving DecidableEq, Repr

/-- The lightkurve stage calls of the pipeline that can raise, as
`Except`-valued functions: `bin(time_bin_size=10*u.minute)`,
`flatten().remove_outliers()`, `to_periodogram(method='bls')`, and
`fold(period, epoch_time)`. -/
structure PipelineOps where
  binStep : LightCurve → Except String LightCurve
  cleanStep : LightCurve → Except String LightCurve
  periodogramStep : LightCurve → Except String Periodogram
  foldStep : LightCurve → ℚ → ℚ → Except String LightCurve
  deriving Inhabited

/-- The three plot artifacts the pipeline can render, in order. -/
inductive PlotArtifact where
  | cleanedPlot
  | periodogramPlot
  | foldedPlot
  deriving DecidableEq, Repr

/-- Observable UI outcome of one `process_selected_data` run: the
`st.error` messages emitted, the number of per-file skip notices, the
plots rendered (these persist once emitted), the final content of the
status placeholder (`none` = cleared by `.empty()`), whether the progress
placeholder still holds a widget, and the period announced by the
`st.success` of line 60 — a direct element that, like the plots, persists
once stage 4 has emitted it, whatever happens afterwards. -/
structure UIState where
  errors : List String
  skips : Nat
  plots : List PlotArtifact
  status : Option String
  progressShown : Bool
  reportedPeriod : Option ℚ
  deriving DecidableEq, Repr

/-- The download-and-filter loop of stage 1 (lines 32–41): download each
item in order; keep `lc.normalize()` when the download is neither an
exception nor `None` and `lc.remove_nans()` retains at least one cadence,
otherwise write a skip notice.  An exception aborts the loop, carrying the
skip notices already written. -/
def downloadLoop : List (Except String (Option LightCurve)) → Nat → List LightCurve →
    Except (String × Nat) (Nat × List LightCurve)
  | [], skips, acc => Except.ok (skips, acc.reverse)
  | item :: rest, skips, acc =>
    match item with
    | Except.error e => Except.error (e, skips)
    | Except.ok none => downloadLoop rest (skips + 1) acc
    | Except.ok (some lc) =>
      if 0 < (remove_nans lc).samples.length then
        downloadLoop rest skips (normalize lc :: acc)
      else
        downloadLoop rest (skips + 1) acc

/-- The UI state produced by the `except` clause (lines 68–70): one
`st.error` with the exception message, both placeholders emptied; plots,
skip notices and the period report already emitted persist (`reported` is
the period announced so far — `none` before stage 4 completes, the
detected period after). -/
def exceptState (skips : Nat) (plots : List PlotArtifact) (reported : Option ℚ)
    (e : String) : UIState :=
  { errors := ["An error occurred during analysis: " ++ e]
    skips := skips
    plots := plots
    status := none
    progressShown := false
    reportedPeriod := reported }

/-- `process_selected_data` (`exo_app.py` lines 22–70).  The whole body
runs inside `try`; any stage exception lands in `exceptState`.  When every
selected item is discarded, the hard-precondition branch (lines 42–45)
emits its `st.error` and returns before any later stage. -/
def process_selected_data (ops : PipelineOps)
    (selected_items : List (Except String (Option LightCurve))) : UIState :=
  match downloadLoop selected_items 0 [] with
  | Except.error (e, skips) => exceptState skips [] none e
  | Except.ok (skips, processed_light_curves) =>
    if processed_light_curves.isEmpty then
      { errors := ["Could not process any of the selected light curve data."]
        skips := skips
        plots := []
        status := none
        progressShown := false
        reportedPeriod := none }
    else
      match ops.binStep (stitchStage processed_light_curves) with
      | Except.error e => exceptState skips [] none e
      | Except.ok binned_lc =>
        match ops.cleanStep binned_lc with
        | Except.error e => exceptState skips [] none e
        | Except.ok clean_lc =>
          match ops.periodogramStep clean_lc with
          | Except.error e => exceptState skips [PlotArtifact.cleanedPlot] none e
          | Except.ok periodogram =>
            match ops.foldStep clean_lc periodogram.period_at_max_power
                periodogram.transit_time_at_max_power with
            | Except.error e =>
              exceptState skips [PlotArtifact.cleanedPlot, PlotArtifact.periodogramPlot]
                (some periodogram.period_at_max_power) e
            | Except.ok _ =>
              { errors := []
                skips := skips
                plots := [PlotArtifact.cleanedPlot, PlotArtifact.periodogramPlot,
                          PlotArtifact.foldedPlot]
                status := some "Analysis Complete!"
                progressShown := false
                reportedPeriod := some periodogram.period_at_max_power }

/-! ## Derived definitions and concrete fixtures

Named forms of the values the mission branch of `fetch_catalog_targets`
selects (for stating theorems uniformly over the three known missions), a
classifier for warning actions of the search tab, and small concrete
light curves, tables and stage functions used to instantiate the
universally-quantified theorems on closed inputs. -/

/-- The CSV URL the mission branch of `fetch_catalog_targets` selects
(only meaningful for the three known missions). -/
def catalogUrlFor (mission_name : String) : String :=
  if mission_name = "TESS" then toiUrl else keplerUrl

/-- The disposition labels the mission branch of `fetch_catalog_targets`
selects (only meaningful for the three known missions). -/
def dispositionsFor (mission_name disposition_type : String) : List String :=
  if mission_name = "TESS" then
    (if disposition_type = "PLANETS" then ["CP", "PC"] else ["FP"])
  else
    (if disposition_type = "PLANETS" then ["CONFIRMED", "CANDIDATE"] else ["FALSE POSITIVE"])

/-- Whether a search-tab action is one of the user-facing warnings; the
two `search…` constructors are the only actions that call
`lk.search_lightcurve`. -/
def isWarningAction : SearchAction → Bool
  | SearchAction.warnEmptyInput => true
  | SearchAction.warnEmptyFilters => true
  | SearchAction.searchAll _ => false
  | SearchAction.searchFiltered _ _ _ => false

/-- Sampling by taking the first `k` rows: one concrete function meeting
the `DataFrame.sample` contract, used to instantiate theorems. -/
def takeSample (k : Nat) (xs : List CatalogRow) : List CatalogRow :=
  xs.take k

/-- A tiny concrete TOI table for instantiating catalog theorems. -/
def toiTableFx : List CatalogRow :=
  [{ id := 261136679, disposition := "CP", period := some 6, radius := some 2 },
   { id := 307210830, disposition := "FP", period := none, radius := none },
   { id := 55525572, disposition := "PC", period := some 83, radius := some 10 }]

/-- A concrete TIC query result for instantiating `fetch_untested_targets`
theorems: the first row's ID is a known TOI, the second is not. -/
def ticRowsFx : List TicRow :=
  [{ id := 5, tmag := 10, dst := 20, ra := 1, dec := 2 },
   { id := 6, tmag := 11, dst := 30, ra := 3, dec := 4 }]

/-- Stage functions that never raise, for instantiating pipeline theorems. -/
def okOps : PipelineOps :=
  { binStep := fun lc => Except.ok lc
    cleanStep := fun lc => Except.ok lc
    periodogramStep := fun _ =>
      Except.ok { period_at_max_power := 1, transit_time_at_max_power := 0 }
    foldStep := fun lc _ _ => Except.ok lc }

/-- Stage functions whose periodogram stage raises, exhibiting a failure
after the cleaned-light-curve plot has been rendered. -/
def boomOps : PipelineOps :=
  { binStep := fun lc => Except.ok lc
    cleanStep := fun lc => Except.ok lc
    periodogramStep := fun _ => Except.error "boom"
    foldStep := fun lc _ _ => Except.ok lc }

/-- A one-cadence segment with a valid flux at time `0`. -/
def earlySeg : LightCurve :=
  ⟨[{ time := 0, flux := some 1 }]⟩

/-- A one-cadence segment with a valid flux at time `10`. -/
def lateSeg : LightCurve :=
  ⟨[{ time := 10, flux := some 1 }]⟩

/-- A one-cadence segment whose only flux is NaN. -/
def nanSeg : LightCurve :=
  ⟨[{ time := 0, flux := none }]⟩

/-- Selected items that are all invalid: a `None` download and a download
whose cadences are all NaN. -/
def allInvalidItems : List (Except String (Option LightCurve)) :=
  [Except.ok none, Except.ok (some nanSeg)]

/-- A one-row catalog with no `"CP"`/`"PC"` disposition, for instantiating
the empty-filter case. -/
def fpOnlyTable : List CatalogRow :=
  [{ id := 1, disposition := "KP", period := none, radius := none }]

/-! ## Theorems settling the claims -/

/-- C10: for every mission name other than `"TESS"`, `"Kepler"` and
`"K2"`, `fetch_catalog_targets` returns an empty table immediately, with
no remote fetch attempted and no warning emitted. -/
theorem fetch_catalog_targets_unknown_mission
    (fetchCsv : String → Except String (List CatalogRow))
    (sample : Nat → List CatalogRow → List CatalogRow)
    (mission_name disposition_type : String) (num_targets : Nat)
    (h1 : mission_name ≠ "TESS") (h2 : mission_name ≠ "Kepler") (h3 : mission_name ≠ "K2") :
    fetch_catalog_targets fetchCsv sample mission_name disposition_type num_targets =
      { table := [], warned := false, fetchAttempted := false } := by
  unfold fetch_catalog_targets
  rw [if_neg h1, if_neg (by simp [h2, h3])]

/-- Witness for C10 at the concrete mission name `"JWST"`. -/
theorem fetch_catalog_targets_unknown_mission_witness :
    fetch_catalog_targets (fun _ => Except.ok toiTableFx) takeSample "JWST" "PLANETS" 25 =
      { table := [], warned := false, fetchAttempted := false } :=
  fetch_catalog_targets_unknown_mission _ _ _ _ _
    (by decide) (by decide) (by decide)

/-- Equation lemma for the successful-fetch case of `fetchCatalogBody`. -/
theorem fetchCatalogBody_ok
    (fetchCsv : String → Except String (List CatalogRow))
    (sample : Nat → List CatalogRow → List CatalogRow)
    (url idPref : String) (disps : List String) (num_targets : Nat)
    (catalog_df : List CatalogRow) (hok : fetchCsv url = Except.ok catalog_df) :
    fetchCatalogBody fetchCsv sample url idPref disps num_targets =
      (if (catalog_df.filter (fun r => decide (r.disposition ∈ disps))).isEmpty then
        { table := [], warned := false, fetchAttempted := true }
      else
        { table := (sample
              (min num_targets
                (catalog_df.filter (fun r => decide (r.disposition ∈ disps))).length)
              (catalog_df.filter (fun r => decide (r.disposition ∈ disps)))).map
            (toResultRow idPref)
          warned := false
          fetchAttempted := true }) := by
  unfold fetchCatalogBody
  rw [hok]

/-- Helper for C6: a fetched catalog with an empty disposition filter
makes `fetchCatalogBody` return the empty table without a warning. -/
theorem fetchCatalogBody_empty_filter
    (fetchCsv : String → Except String (List CatalogRow))
    (sample : Nat → List CatalogRow → List CatalogRow)
    (url idPref : String) (disps : List String) (num_targets : Nat)
    (catalog_df : List CatalogRow) (hok : fetchCsv url = Except.ok catalog_df)
    (hfil : catalog_df.filter (fun r => decide (r.disposition ∈ disps)) = []) :
    fetchCatalogBody fetchCsv sample url idPref disps num_targets =
      { table := [], warned := false, fetchAttempted := true } := by
  unfold fetchCatalogBody
  rw [hok]
  simp [hfil]

/-- Helper for C6: a failing fetch makes `fetchCatalogBody` return the
empty table with a warning. -/
theorem fetchCatalogBody_fetch_failed
    (fetchCsv : String → Except String (List CatalogRow))
    (sample : Nat → List CatalogRow → List CatalogRow)
    (url idPref : String) (disps : List String) (num_targets : Nat)
    (e : String) (herr : fetchCsv url = Except.error e) :
    fetchCatalogBody fetchCsv sample url idPref disps num_targets =
      { table := [], warned := true, fetchAttempted := true } := by
  unfold fetchCatalogBody
  rw [herr]

/-- C6: for every call of `fetch_catalog_targets` on a known mission, a
fetched catalog in which the disposition filter matches zero rows yields
an empty table with no warning (and no exception, the model being total);
a failing fetch yields a warning plus an empty table instead of a
propagated exception. -/
theorem fetch_catalog_targets_degrades_gracefully
    (fetchCsv : String → Except String (List CatalogRow))
    (sample : Nat → List CatalogRow → List CatalogRow)
    (mission_name disposition_type : String) (num_targets : Nat)
    (hm : mission_name = "TESS" ∨ mission_name = "Kepler" ∨ mission_name = "K2") :
    (∀ catalog_df, fetchCsv (catalogUrlFor mission_name) = Except.ok catalog_df →
      catalog_df.filter
        (fun r => decide (r.disposition ∈ dispositionsFor mission_name disposition_type)) = [] →
      fetch_catalog_targets fetchCsv sample mission_name disposition_type num_targets =
        { table := [], warned := false, fetchAttempted := true }) ∧
    (∀ e, fetchCsv (catalogUrlFor mission_name) = Except.error e →
      fetch_catalog_targets fetchCsv sample mission_name disposition_type num_targets =
        { table := [], warned := true, fetchAttempted := true }) := by
  rcases hm with rfl | rfl | rfl
  · refine ⟨fun catalog_df hok hfil => ?_, fun e herr => ?_⟩
    · unfold fetch_catalog_targets
      rw [if_pos rfl]
      exact fetchCatalogBody_empty_filter _ _ _ _ _ _ _
        (by simpa [catalogUrlFor] using hok) (by simpa [dispositionsFor] using hfil)
    · unfold fetch_catalog_targets
      rw [if_pos rfl]
      exact fetchCatalogBody_fetch_failed _ _ _ _ _ _ _
        (by simpa [catalogUrlFor] using herr)
  · refine ⟨fun catalog_df hok hfil => ?_, fun e herr => ?_⟩
    · unfold fetch_catalog_targets
      rw [if_neg (by decide), if_pos (Or.inl rfl)]
      exact fetchCatalogBody_empty_filter _ _ _ _ _ _ _
        (by simpa [catalogUrlFor] using hok) (by simpa [dispositionsFor] using hfil)
    · unfold fetch_catalog_targets
      rw [if_neg (by decide), if_pos (Or.inl rfl)]
      exact fetchCatalogBody_fetch_failed _ _ _ _ _ _ _
        (by simpa [catalogUrlFor] using herr)
  · refine ⟨fun catalog_df hok hfil => ?_, fun e herr => ?_⟩
    · unfold fetch_catalog_targets
      rw [if_neg (by decide), if_pos (Or.inr rfl)]
      exact fetchCatalogBody_empty_filter _ _ _ _ _ _ _
        (by simpa [catalogUrlFor] using hok) (by simpa [dispositionsFor] using hfil)
    · unfold fetch_catalog_targets
      rw [if_neg (by decide), if_pos (Or.inr rfl)]
      exact fetchCatalogBody_fetch_failed _ _ _ _ _ _ _
        (by simpa [catalogUrlFor] using herr)

/-- Witness for C6 on mission `"TESS"`: a catalog with no `"CP"`/`"PC"`
row gives the empty-no-warning outcome, and a failing fetch gives the
warned-empty outcome. -/
theorem fetch_catalog_targets_degrades_gracefully_witness :
    fetch_catalog_targets (fun _ => Except.ok fpOnlyTable) takeSample "TESS" "PLANETS" 25 =
      { table := [], warned := false, fetchAttempted := true } ∧
    fetch_catalog_targets (fun _ => Except.error "connection reset") takeSample
        "TESS" "PLANETS" 25 =
      { table := [], warned := true, fetchAttempted := true } :=
  ⟨(fetch_catalog_targets_degrades_gracefully _ takeSample "TESS" "PLANETS" 25
      (Or.inl rfl)).1 _ rfl (by decide),
   (fetch_catalog_targets_degrades_gracefully _ takeSample "TESS" "PLANETS" 25
      (Or.inl rfl)).2 _ rfl⟩

/-- C2: every successful (and in the model, every) call
`fetch_catalog_targets("TESS", "PLANETS", 25)` returns at most 25 rows,
each with a `"Searchable ID"` beginning with `"TIC "` and a `"Status"` in
`{CP, PC}`; the sampling parameter is constrained by the pandas
`DataFrame.sample` contract. -/
theorem fetch_catalog_targets_tess_planets
    (fetchCsv : String → Except String (List CatalogRow))
    (sample : Nat → List CatalogRow → List CatalogRow)
    (hlen : ∀ k xs, k ≤ xs.length → (sample k xs).length = k)
    (hmem : ∀ k xs r, r ∈ sample k xs → r ∈ xs) :
    (fetch_catalog_targets fetchCsv sample "TESS" "PLANETS" 25).table.length ≤ 25 ∧
    ∀ row ∈ (fetch_catalog_targets fetchCsv sample "TESS" "PLANETS" 25).table,
      (∃ rest, row.searchableId = "TIC " ++ rest) ∧
      (row.status = "CP" ∨ row.status = "PC") := by
  have hred : fetch_catalog_targets fetchCsv sample "TESS" "PLANETS" 25 =
      fetchCatalogBody fetchCsv sample toiUrl "TIC " ["CP", "PC"] 25 := rfl
  rw [hred]
  cases hf : fetchCsv toiUrl with
  | error e =>
    rw [fetchCatalogBody_fetch_failed _ _ _ _ _ _ _ hf]
    exact ⟨by simp, by simp⟩
  | ok catalog_df =>
    rw [fetchCatalogBody_ok _ _ _ _ _ _ _ hf]
    by_cases he :
        (catalog_df.filter (fun r => decide (r.disposition ∈ ["CP", "PC"]))).isEmpty
    · rw [if_pos he]
      exact ⟨by simp, by simp⟩
    · rw [if_neg he]
      constructor
      · simp only [List.length_map]
        rw [hlen _ _ (Nat.min_le_right _ _)]
        exact Nat.min_le_left _ _
      · intro row hrow
        simp only [List.mem_map] at hrow
        obtain ⟨r, hr, rfl⟩ := hrow
        have hrf := hmem _ _ _ hr
        rw [List.mem_filter] at hrf
        have hd : r.disposition = "CP" ∨ r.disposition = "PC" := by
          have := hrf.2
          simpa using this
        exact ⟨⟨toString r.id, rfl⟩, hd⟩

/-- Witness for C2: the concrete TOI fixture with take-first sampling. -/
theorem fetch_catalog_targets_tess_planets_witness :
    (fetch_catalog_targets (fun _ => Except.ok toiTableFx) takeSample
        "TESS" "PLANETS" 25).table.length ≤ 25 ∧
    ∀ row ∈ (fetch_catalog_targets (fun _ => Except.ok toiTableFx) takeSample
        "TESS" "PLANETS" 25).table,
      (∃ rest, row.searchableId = "TIC " ++ rest) ∧
      (row.status = "CP" ∨ row.status = "PC") :=
  fetch_catalog_targets_tess_planets _ takeSample
    (fun k xs h => by simpa [takeSample, List.length_take] using Nat.min_eq_left h)
    (fun k xs r h => List.take_subset k xs h)

/-- Counterexample for C1 as stated: `Catalogs.query_criteria` with
`pagesize=n` and no `page` argument returns every matching row (pagesize
only sets the per-request page length), so the query result — and with it
the returned table — is not bounded by `n`: here the query for
`num_to_sample = 1` answers with two stars unknown to the TOI list and
the table has two rows. -/
theorem fetch_untested_targets_size_cex :
    ¬ (fetch_untested_targets (Except.ok []) (fun _ => Except.ok ticRowsFx) 1).table.length
        ≤ 1 := by
  decide

/-- C1 (amended): for every successful run of `fetch_untested_targets` —
the TOI ID set fetched, the TIC query answered — every returned row comes
from a queried star whose ID is absent from the known-object ID set, and
the table has at most as many rows as the TIC query returned.  (The
claim's bound of `n` rows fails, since `pagesize` does not bound the
query's total result; see the counterexample.) -/
theorem fetch_untested_targets_excludes_known
    (fetchToi : Except String (List Nat)) (queryTic : Nat → Except String (List TicRow))
    (num_to_sample : Nat) (known : List Nat) (rows : List TicRow)
    (htoi : fetchToi = Except.ok known)
    (htic : queryTic num_to_sample = Except.ok rows) :
    (fetch_untested_targets fetchToi queryTic num_to_sample).table.length ≤ rows.length ∧
    ∀ row ∈ (fetch_untested_targets fetchToi queryTic num_to_sample).table,
      ∃ t, t ∈ rows ∧ ¬ t.id ∈ known ∧ row = renameTicRow t := by
  subst htoi
  unfold fetch_untested_targets
  rw [htic]
  constructor
  · simp only [List.length_map]
    exact List.length_filter_le _ _
  · intro row hrow
    simp only [List.mem_map] at hrow
    obtain ⟨t, ht, rfl⟩ := hrow
    rw [List.mem_filter] at ht
    refine ⟨t, ht.1, ?_, rfl⟩
    have := ht.2
    simpa using this

/-- Witness for C1: known IDs `[5, 7]`, a two-row TIC sample containing
the known ID `5`; the returned table satisfies the exclusion and the
query-size bound. -/
theorem fetch_untested_targets_excludes_known_witness :
    (fetch_untested_targets (Except.ok [5, 7]) (fun _ => Except.ok ticRowsFx) 2).table.length
        ≤ ticRowsFx.length ∧
    ∀ row ∈ (fetch_untested_targets (Except.ok [5, 7]) (fun _ => Except.ok ticRowsFx) 2).table,
      ∃ t, t ∈ ticRowsFx ∧ ¬ t.id ∈ [(5 : Nat), 7] ∧ row = renameTicRow t :=
  fetch_untested_targets_excludes_known (Except.ok [5, 7])
    (fun _ => Except.ok ticRowsFx) 2 [5, 7] ticRowsFx rfl rfl

/-- C4: for every input whose normalization (uppercase, remove the
TIC/KIC/EPIC markers, strip whitespace) is entirely digits, the search tab
classifies it as a numeric-ID search and searches with no mission or
author filter, whatever the current filter selections, including empty
ones. -/
theorem search_tab_numeric_id_unfiltered
    (star_id_input : String) (selected_missions selected_authors : List String)
    (h : pyIsdigit (searchTerm star_id_input) = true) :
    search_tab star_id_input selected_missions selected_authors =
      SearchAction.searchAll star_id_input := by
  by_cases hi : star_id_input = ""
  · exfalso
    rw [hi] at h
    have hfalse : pyIsdigit (searchTerm "") = false := by decide
    rw [hfalse] at h
    exact Bool.false_ne_true h
  · unfold search_tab
    rw [if_neg hi]
    simp only [h, if_true]

/-- Witness for C4 at the spec's example input `"TIC 261136679"` with
empty mission and author selections. -/
theorem search_tab_numeric_id_unfiltered_witness :
    pyIsdigit (searchTerm "TIC 261136679") = true ∧
    search_tab "TIC 261136679" [] [] = SearchAction.searchAll "TIC 261136679" :=
  ⟨by decide, search_tab_numeric_id_unfiltered "TIC 261136679" [] [] (by decide)⟩

/-- C5: every input error — an empty search string, or a name
(non-digit) search while the mission or the author selection is empty —
produces a warning action, and warning actions attempt no archive search
(only the two `search…` constructors invoke `lk.search_lightcurve`). -/
theorem search_tab_input_error_warns
    (star_id_input : String) (selected_missions selected_authors : List String)
    (h : star_id_input = "" ∨
      (pyIsdigit (searchTerm star_id_input) = false ∧
        (selected_missions = [] ∨ selected_authors = []))) :
    isWarningAction (search_tab star_id_input selected_missions selected_authors) = true := by
  rcases h with rfl | ⟨hd, hfa⟩
  · rfl
  · by_cases hi : star_id_input = ""
    · subst hi
      rfl
    · unfold search_tab
      rw [if_neg hi]
      simp only [hd, Bool.false_eq_true, if_false]
      rw [if_pos hfa]
      rfl

/-- Witness for C5: the empty input, and a name search with an empty
mission selection. -/
theorem search_tab_input_error_warns_witness :
    isWarningAction (search_tab "" ["TESS"] ["SPOC"]) = true ∧
    isWarningAction (search_tab "Kepler-10" [] ["SPOC"]) = true :=
  ⟨search_tab_input_error_warns "" ["TESS"] ["SPOC"] (Or.inl rfl),
   search_tab_input_error_warns "Kepler-10" [] ["SPOC"]
     (Or.inr ⟨by decide, Or.inl rfl⟩)⟩

/-- C9: the stage-5 fold is periodic — two timestamps that differ by an
exact integer multiple of the detected period are mapped to the same
phase (stated over exact rationals, the idealization of floating-point
tolerance). -/
theorem foldPhase_periodic (period epoch_time t : ℚ) (k : ℤ) (hP : 0 < period) :
    foldPhase period epoch_time (t + k * period) = foldPhase period epoch_time t := by
  have hne : period ≠ 0 := ne_of_gt hP
  unfold foldPhase
  have hdiv : (t + k * period - epoch_time + period / 2) / period
      = (t - epoch_time + period / 2) / period + k := by
    field_simp
    ring
  rw [hdiv, Int.floor_add_int]
  push_cast
  ring

/-- Witness for C9 at period `2`, epoch `1/2`, timestamps `3` and
`3 + 5 * 2`. -/
theorem foldPhase_periodic_witness :
    (0 : ℚ) < 2 ∧
      foldPhase 2 (1 / 2) (3 + (5 : ℤ) * 2) = foldPhase 2 (1 / 2) 3 :=
  ⟨by norm_num, foldPhase_periodic 2 (1 / 2) 3 5 (by norm_num)⟩

/-- Helper for C3: when every selected item downloads as `None` or has no
valid cadence, the download loop finishes normally, writes one skip notice
per item, and retains nothing. -/
theorem downloadLoop_all_invalid (items : List (Except String (Option LightCurve))) :
    ∀ skips acc,
      (∀ x ∈ items, x = Except.ok none ∨
        ∃ lc, x = Except.ok (some lc) ∧ (remove_nans lc).samples.length = 0) →
      downloadLoop items skips acc = Except.ok (skips + items.length, acc.reverse) := by
  induction items with
  | nil =>
    intro skips acc _
    simp [downloadLoop]
  | cons x rest ih =>
    intro skips acc h
    have hrest := fun y hy => h y (List.mem_cons_of_mem x hy)
    rcases h x (List.mem_cons_self x rest) with hx | ⟨lc, hx, hlen⟩
    · subst hx
      rw [downloadLoop, ih (skips + 1) acc hrest]
      simp only [List.length_cons, Except.ok.injEq, Prod.mk.injEq, and_true]
      omega
    · subst hx
      rw [downloadLoop]
      rw [if_neg (by omega)]
      rw [ih (skips + 1) acc hrest]
      simp only [List.length_cons, Except.ok.injEq, Prod.mk.injEq, and_true]
      omega

/-- C3: when every selected segment downloads as `None` or has zero valid
cadences, the pipeline reports the `st.error` of lines 42–45, clears both
placeholders, and returns with no plot artifact and no period — later
stages never run. -/
theorem process_selected_data_all_invalid (ops : PipelineOps)
    (selected_items : List (Except String (Option LightCurve)))
    (h : ∀ x ∈ selected_items, x = Except.ok none ∨
      ∃ lc, x = Except.ok (some lc) ∧ (remove_nans lc).samples.length = 0) :
    process_selected_data ops selected_items =
      { errors := ["Could not process any of the selected light curve data."]
        skips := selected_items.length
        plots := []
        status := none
        progressShown := false
        reportedPeriod := none } := by
  unfold process_selected_data
  rw [downloadLoop_all_invalid selected_items 0 [] h]
  simp

/-- Witness for C3: one `None` download plus one all-NaN download. -/
theorem process_selected_data_all_invalid_witness :
    (∀ x ∈ allInvalidItems, x = Except.ok none ∨
      ∃ lc, x = Except.ok (some lc) ∧ (remove_nans lc).samples.length = 0) ∧
    process_selected_data okOps allInvalidItems =
      { errors := ["Could not process any of the selected light curve data."]
        skips := 2
        plots := []
        status := none
        progressShown := false
        reportedPeriod := none } := by
  have h : ∀ x ∈ allInvalidItems, x = Except.ok none ∨
      ∃ lc, x = Except.ok (some lc) ∧ (remove_nans lc).samples.length = 0 := by
    intro x hx
    simp only [allInvalidItems, List.mem_cons, List.not_mem_nil, or_false] at hx
    rcases hx with rfl | rfl
    · left
      rfl
    · right
      exact ⟨nanSeg, rfl, by decide⟩
  exact ⟨h, process_selected_data_all_invalid okOps allInvalidItems h⟩

/-- C7 (amended): every run of the pipeline either reports no error, or
reports exactly one error message with the status and progress
placeholders cleared — in particular any stage exception is caught at the
top level (the model is total) and never terminates the process.  Output
already emitted by earlier stages, however, persists: plot artifacts, and
the period announcement of line 60 when the fold stage is the one that
fails; see the counterexample. -/
theorem process_selected_data_single_error_cleared (ops : PipelineOps)
    (selected_items : List (Except String (Option LightCurve))) :
    (process_selected_data ops selected_items).errors = [] ∨
      ∃ e, (process_selected_data ops selected_items).errors = [e] ∧
        (process_selected_data ops selected_items).status = none ∧
        (process_selected_data ops selected_items).progressShown = false := by
  unfold process_selected_data
  split
  · exact Or.inr ⟨_, rfl, rfl, rfl⟩
  · split
    · exact Or.inr ⟨_, rfl, rfl, rfl⟩
    · split
      · exact Or.inr ⟨_, rfl, rfl, rfl⟩
      · split
        · exact Or.inr ⟨_, rfl, rfl, rfl⟩
        · split
          · exact Or.inr ⟨_, rfl, rfl, rfl⟩
          · split
            · exact Or.inr ⟨_, rfl, rfl, rfl⟩
            · exact Or.inl rfl

/-- Counterexample for C7 as stated: with a valid downloaded segment and a
periodogram stage that raises, the exception is caught and reported, yet
the cleaned-light-curve plot rendered by the earlier stage persists — a
partial result is retained, contradicting the claim's "without retaining
partial results". -/
theorem process_selected_data_partial_plot_cex :
    (process_selected_data boomOps [Except.ok (some earlySeg)]).errors =
        ["An error occurred during analysis: boom"] ∧
      (process_selected_data boomOps [Except.ok (some earlySeg)]).plots =
        [PlotArtifact.cleanedPlot] := by
  constructor
  · rfl
  · rfl

/-- C8 (amended): for every set of retained segments whatsoever, the
stitched series of stage 2 contains no null-flux sample; and when the set
is chronologically ordered — each segment internally sorted by time and
every sample of an earlier segment no later than every sample of a later
one — its timestamps are monotonically non-decreasing.  (Unconditional
sortedness fails: `stitch` concatenates in collection order without
sorting; see the counterexample.) -/
theorem stitchStage_sorted_of_chronological (lcs : List LightCurve) :
    (∀ s ∈ (stitchStage lcs).samples, s.flux.isSome = true) ∧
    ((∀ lc ∈ lcs, lc.samples.Pairwise (fun a b => a.time ≤ b.time)) →
      lcs.Pairwise (fun l1 l2 => ∀ a ∈ l1.samples, ∀ b ∈ l2.samples, a.time ≤ b.time) →
      (stitchStage lcs).samples.Pairwise (fun a b => a.time ≤ b.time)) := by
  constructor
  · intro s hs
    exact (List.mem_filter.mp hs).2
  · intro hin hchron
    have hflat : ((lcs.map normalize).flatMap (fun lc => lc.samples)).Pairwise
        (fun a b => a.time ≤ b.time) := by
      rw [List.pairwise_flatMap]
      constructor
      · intro nlc hn
        obtain ⟨lc, hlc, rfl⟩ := List.mem_map.mp hn
        have hmap : (normalize lc).samples = lc.samples.map (fun s =>
            { time := s.time
              flux := s.flux.map (fun f => f / nanmedian (fluxValues lc)) }) := rfl
        rw [hmap, List.pairwise_map]
        exact hin lc hlc
      · rw [List.pairwise_map]
        refine hchron.imp ?_
        intro l1 l2 hab a ha b hb
        obtain ⟨a0, ha0, rfl⟩ := List.mem_map.mp ha
        obtain ⟨b0, hb0, rfl⟩ := List.mem_map.mp hb
        exact hab a0 ha0 b0 hb0
    exact List.Pairwise.sublist (List.filter_sublist _) hflat

/-- Witness for the amended C8: two valid segments in chronological
order. -/
theorem stitchStage_sorted_of_chronological_witness :
    (∀ lc ∈ [earlySeg, lateSeg], lc.samples.Pairwise (fun a b => a.time ≤ b.time)) ∧
    ([earlySeg, lateSeg].Pairwise
      (fun l1 l2 => ∀ a ∈ l1.samples, ∀ b ∈ l2.samples, a.time ≤ b.time)) ∧
    ((∀ s ∈ (stitchStage [earlySeg, lateSeg]).samples, s.flux.isSome = true) ∧
      (stitchStage [earlySeg, lateSeg]).samples.Pairwise (fun a b => a.time ≤ b.time)) := by
  have h1 : ∀ lc ∈ [earlySeg, lateSeg],
      lc.samples.Pairwise (fun a b => a.time ≤ b.time) := by
    intro lc hlc
    simp only [List.mem_cons, List.not_mem_nil, or_false] at hlc
    rcases hlc with rfl | rfl <;> simp [earlySeg, lateSeg]
  have h2 : [earlySeg, lateSeg].Pairwise
      (fun l1 l2 => ∀ a ∈ l1.samples, ∀ b ∈ l2.samples, a.time ≤ b.time) := by
    refine List.Pairwise.cons ?_ (List.pairwise_singleton _ _)
    intro l2 hl2
    simp only [List.mem_singleton] at hl2
    subst hl2
    intro a ha b hb
    simp only [earlySeg, lateSeg, List.mem_singleton] at ha hb
    subst ha
    subst hb
    norm_num
  have h := stitchStage_sorted_of_chronological [earlySeg, lateSeg]
  exact ⟨h1, h2, h.1, h.2 h1 h2⟩

/-- Counterexample for C8 as stated: two retained-eligible segments (each
with a valid cadence) stitched in reverse chronological order give a
stitched series whose timestamps are not sorted — stage 2 concatenates in
collection order without sorting. -/
theorem stitchStage_unsorted_cex :
    0 < (remove_nans lateSeg).samples.length ∧
    0 < (remove_nans earlySeg).samples.length ∧
    ¬ (stitchStage [lateSeg, earlySeg]).samples.Pairwise (fun a b => a.time ≤ b.time) := by
  refine ⟨by decide, by decide, ?_⟩
  intro hp
  have hsamp : (stitchStage [lateSeg, earlySeg]).samples =
      [{ time := 10, flux := some (1 / nanmedian (fluxValues lateSeg)) },
       { time := 0, flux := some (1 / nanmedian (fluxValues earlySeg)) }] := rfl
  rw [hsamp] at hp
  have hle := (List.pairwise_cons.mp hp).1 _ (List.mem_cons_self _ _)
  norm_num at hle

end ExoApp
